import Mathlib

/-!
Shallow embedding of the inventory service of
`src/services/inventory.service.ts` (store-backed, dependency-injected
variant; `checkLowStock` follows the revision that returns
`{ alertSent: boolean }`).

The Prisma-backed product store is modelled as a list of product records
together with the store-assigned counters (`nextId` for the autoincrement
primary key, `now` for the `createdAt` default timestamp).  Each service
method is a pure function that returns the outcome (`Except` mirroring
`throw`), the resulting store, and a trace of the collaborator calls it
performed (store reads, inserts, deletes, and `sendAlert` invocations of
the notification service), in order.
-/

namespace Inventory

/-- The persisted `Product` model: integer auto-assigned primary key,
required name, required+unique sku, quantity, default-now creation
timestamp. -/
structure Product where
  id : Nat
  name : String
  sku : String
  quantity : Int
  createdAt : Nat
deriving Repr, DecidableEq

/-- `CreateProductDto`: the input of `addProduct`. -/
structure CreateProductDto where
  name : String
  sku : String
  quantity : Int
deriving Repr, DecidableEq

/-- `OperationResult`: outcome record with a human-readable message,
returned by `removeProduct`. -/
structure OperationResult where
  message : String
deriving Repr, DecidableEq

/-- The record returned by `checkLowStock` in the final revision. -/
structure CheckLowStockResult where
  alertSent : Bool
deriving Repr, DecidableEq

/-- The error messages of the service (`ERROR_MESSAGES`). -/
inductive InvError where
  | productNotFound
  | quantityNegative
  | skuDuplicate
deriving Repr, DecidableEq

/-- The message text carried by each thrown `Error`. -/
def InvError.message : InvError → String
  | .productNotFound => "Product not found"
  | .quantityNegative => "Quantity cannot be negative"
  | .skuDuplicate => "Product with this SKU already exists"

/-- The product store (Prisma client state): stored records plus the
counters the store uses to assign `id` and `createdAt`. -/
structure DB where
  products : List Product
  nextId : Nat
  now : Nat
deriving Repr, DecidableEq

/-- One collaborator call: a store read/insert/delete or a
`notificationService.sendAlert` invocation. -/
inductive Event where
  | storeRead (sku : String)
  | storeInsert (p : Product)
  | storeDelete (sku : String)
  | sendAlert (message : String)
deriving Repr, DecidableEq

/-- `prisma.product.findUnique({ where: { sku } })`. -/
def findUnique (db : DB) (sku : String) : Option Product :=
  db.products.find? (fun p => p.sku == sku)

/-- `prisma.product.create({ data })`: assigns `id` and `createdAt` and
appends the record. -/
def prismaCreate (db : DB) (data : CreateProductDto) : Product × DB :=
  let p : Product :=
    { id := db.nextId
      name := data.name
      sku := data.sku
      quantity := data.quantity
      createdAt := db.now }
  (p, { db with products := db.products ++ [p], nextId := db.nextId + 1 })

/-- `prisma.product.delete({ where: { sku } })`: removes the record with
the given unique key. -/
def prismaDelete (db : DB) (sku : String) : DB :=
  { db with products := db.products.filter (fun p => p.sku != sku) }

/-- `findProductBySku`: store lookup that throws `Product not found` when
absent.  Returns the outcome together with the trace of store calls. -/
def findProductBySku (db : DB) (sku : String) :
    Except InvError Product × List Event :=
  match findUnique db sku with
  | some product => (.ok product, [.storeRead sku])
  | none => (.error .productNotFound, [.storeRead sku])

/-- `validateQuantity`: throws when the quantity is negative.  Performs no
collaborator call. -/
def validateQuantity (quantity : Int) : Except InvError Unit :=
  if quantity < 0 then .error .quantityNegative else .ok ()

/-- `validateUniqueSku`: one store read; throws when a record with the sku
already exists. -/
def validateUniqueSku (db : DB) (sku : String) :
    Except InvError Unit × List Event :=
  match findUnique db sku with
  | some _ => (.error .skuDuplicate, [.storeRead sku])
  | none => (.ok (), [.storeRead sku])

/-- `addProduct`: validates the quantity, then the sku uniqueness, then
creates the record.  Returns the outcome, the resulting store, and the
trace of collaborator calls. -/
def addProduct (db : DB) (data : CreateProductDto) :
    Except InvError Product × DB × List Event :=
  match validateQuantity data.quantity with
  | .error e => (.error e, db, [])
  | .ok () =>
    match validateUniqueSku db data.sku with
    | (.error e, tr) => (.error e, db, tr)
    | (.ok (), tr) =>
      let created := prismaCreate db data
      (.ok created.1, created.2, tr ++ [.storeInsert created.1])

/-- `removeProduct`: verifies existence via `findProductBySku`, then
deletes, then returns the fixed confirmation message. -/
def removeProduct (db : DB) (sku : String) :
    Except InvError OperationResult × DB × List Event :=
  match findProductBySku db sku with
  | (.error e, tr) => (.error e, db, tr)
  | (.ok _, tr) =>
    (.ok { message := "Product removed successfully" },
     prismaDelete db sku, tr ++ [.storeDelete sku])

/-- `generateLowStockMessage`: the fixed-format alert text. -/
def generateLowStockMessage (sku : String) (quantity : Int) : String :=
  "Low stock alert: Product " ++ sku ++ " has only " ++
    toString quantity ++ " units left"

/-- `checkLowStock`: looks the product up, throws `Product not found` when
absent, sends one alert when the quantity is strictly below the threshold
(default 5) and reports whether it did.  The store is not modified. -/
def checkLowStock (db : DB) (sku : String) (threshold : Int := 5) :
    Except InvError CheckLowStockResult × List Event :=
  match findUnique db sku with
  | none => (.error .productNotFound, [.storeRead sku])
  | some product =>
    if product.quantity < threshold then
      let message := generateLowStockMessage sku product.quantity
      (.ok { alertSent := true }, [.storeRead sku, .sendAlert message])
    else
      (.ok { alertSent := false }, [.storeRead sku])

/-- The alert messages of a trace, in order: the arguments of the
`sendAlert` calls. -/
def alertMessages (tr : List Event) : List String :=
  tr.filterMap (fun e => match e with
    | .sendAlert m => some m
    | _ => none)

end Inventory

namespace Inventory

/-! ### Helper lemmas -/

theorem validateQuantity_ok {q : Int} (hq : 0 ≤ q) :
    validateQuantity q = .ok () := by
  simp [validateQuantity, not_lt.mpr hq]

theorem addProduct_ok (db : DB) (data : CreateProductDto)
    (hq : 0 ≤ data.quantity) (habs : findUnique db data.sku = none) :
    addProduct db data =
      (.ok (prismaCreate db data).1, (prismaCreate db data).2,
        [.storeRead data.sku, .storeInsert (prismaCreate db data).1]) := by
  unfold addProduct validateUniqueSku
  rw [validateQuantity_ok hq, habs]
  rfl

theorem findUnique_prismaDelete (db : DB) (sku : String) :
    findUnique (prismaDelete db sku) sku = none := by
  unfold findUnique prismaDelete
  rw [List.find?_filter, List.find?_eq_none]
  intro x hx
  simp

theorem findUnique_prismaCreate_self (db : DB) (data : CreateProductDto)
    (habs : findUnique db data.sku = none) :
    findUnique (prismaCreate db data).2 data.sku
      = some (prismaCreate db data).1 := by
  unfold findUnique prismaCreate
  unfold findUnique at habs
  rw [List.find?_append, habs]
  simp

theorem removeProduct_unfindable (db : DB) (sku : String) (p : Product)
    (hp : findUnique db sku = some p) :
    (removeProduct db sku).1 = .ok { message := "Product removed successfully" } ∧
    findUnique (removeProduct db sku).2.1 sku = none := by
  unfold removeProduct findProductBySku
  rw [hp]
  exact ⟨rfl, findUnique_prismaDelete db sku⟩

/-! ### Concrete stores and inputs used by the witnesses
(taken from the repository's test fixtures). -/

def dbEmpty : DB := { products := [], nextId := 1, now := 0 }

def laptopLow : Product :=
  { id := 1, name := "Laptop", sku := "LAP-001", quantity := 3, createdAt := 0 }

def dbLow : DB := { products := [laptopLow], nextId := 2, now := 0 }

def desktopHigh : Product :=
  { id := 2, name := "Desktop", sku := "LAP-002", quantity := 10, createdAt := 0 }

def dbTwo : DB := { products := [laptopLow, desktopHigh], nextId := 3, now := 0 }

def laptopDto : CreateProductDto :=
  { name := "Laptop", sku := "LAP-001", quantity := 10 }

def mouseDto : CreateProductDto :=
  { name := "Mouse", sku := "MOU-001", quantity := 7 }

def negativeDto : CreateProductDto :=
  { name := "Laptop", sku := "LAP-002", quantity := -5 }

def duplicateDto : CreateProductDto :=
  { name := "Desktop", sku := "LAP-001", quantity := 5 }

def zeroDto : CreateProductDto :=
  { name := "Monitor", sku := "MON-001", quantity := 0 }

def emptyNameDto : CreateProductDto :=
  { name := "", sku := "X-1", quantity := 1 }

def pLaptop : Product :=
  { id := 1, name := "Laptop", sku := "LAP-001", quantity := 10, createdAt := 0 }

/-! ### Claims -/

/-- C1: for every sku present in the store, `checkLowStock` returns
`{ alertSent := true }` exactly when the stored quantity is strictly below
the threshold and `{ alertSent := false }` otherwise; for every absent sku
it fails with the not-found error and sends no alert. -/
theorem checkLowStock_reports_alertSent (db : DB) (sku : String) (threshold : Int) :
    (∀ p, findUnique db sku = some p →
      (checkLowStock db sku threshold).1 =
        .ok { alertSent := decide (p.quantity < threshold) }) ∧
    (findUnique db sku = none →
      (checkLowStock db sku threshold).1 = .error .productNotFound ∧
      alertMessages (checkLowStock db sku threshold).2 = []) := by
  constructor
  · intro p hp
    unfold checkLowStock
    rw [hp]
    by_cases h : p.quantity < threshold
    · simp [h]
    · simp [h]
  · intro h
    unfold checkLowStock
    rw [h]
    exact ⟨rfl, rfl⟩

/-- Witness for C1: `LAP-001` is present in `dbLow` with quantity 3, so
`checkLowStock` reports `alertSent = true`; `MISSING` is absent and the
call fails with the not-found error. -/
theorem checkLowStock_reports_alertSent_witness :
    (findUnique dbLow "LAP-001" = some laptopLow ∧
      (checkLowStock dbLow "LAP-001" 5).1 = .ok { alertSent := true }) ∧
    (findUnique dbLow "MISSING" = none ∧
      (checkLowStock dbLow "MISSING" 5).1 = .error .productNotFound) := by
  refine ⟨⟨rfl, ?_⟩, ⟨rfl, ?_⟩⟩
  · exact (checkLowStock_reports_alertSent dbLow "LAP-001" 5).1 laptopLow rfl
  · exact ((checkLowStock_reports_alertSent dbLow "MISSING" 5).2 rfl).1

/-- C2: for every input with nonnegative quantity and absent sku,
`addProduct` succeeds, appends exactly one new record, and the returned
record's name, sku and quantity equal the inputs, with the store-assigned
id and createdAt. -/
theorem addProduct_success_spec (db : DB) (data : CreateProductDto)
    (hq : 0 ≤ data.quantity) (habs : findUnique db data.sku = none) :
    ∃ p, (addProduct db data).1 = .ok p ∧
      p.name = data.name ∧ p.sku = data.sku ∧ p.quantity = data.quantity ∧
      p.id = db.nextId ∧ p.createdAt = db.now ∧
      (addProduct db data).2.1.products = db.products ++ [p] := by
  refine ⟨(prismaCreate db data).1, ?_⟩
  rw [addProduct_ok db data hq habs]
  exact ⟨rfl, rfl, rfl, rfl, rfl, rfl, rfl⟩

/-- Witness for C2: adding `("Laptop", "LAP-001", 10)` to the empty store
succeeds and returns the inputs with the assigned id and createdAt. -/
theorem addProduct_success_spec_witness :
    (0:Int) ≤ laptopDto.quantity ∧ findUnique dbEmpty laptopDto.sku = none ∧
    ∃ p, (addProduct dbEmpty laptopDto).1 = .ok p ∧
      p.name = laptopDto.name ∧ p.sku = laptopDto.sku ∧
      p.quantity = laptopDto.quantity ∧
      p.id = dbEmpty.nextId ∧ p.createdAt = dbEmpty.now ∧
      (addProduct dbEmpty laptopDto).2.1.products = dbEmpty.products ++ [p] :=
  ⟨by decide, rfl, addProduct_success_spec dbEmpty laptopDto (by decide) rfl⟩

/-- C3: on a present sku, `checkLowStock` invokes `sendAlert` exactly once
with the fixed-format message holding that sku and quantity when the
quantity is strictly below the threshold, zero times when at or above, and
in every case at most once. -/
theorem checkLowStock_alert_calls (db : DB) (sku : String) (threshold : Int)
    (p : Product) (hp : findUnique db sku = some p) :
    (p.quantity < threshold →
      alertMessages (checkLowStock db sku threshold).2 =
        ["Low stock alert: Product " ++ sku ++ " has only " ++
          toString p.quantity ++ " units left"]) ∧
    (threshold ≤ p.quantity →
      alertMessages (checkLowStock db sku threshold).2 = []) ∧
    (alertMessages (checkLowStock db sku threshold).2).length ≤ 1 := by
  unfold checkLowStock
  rw [hp]
  by_cases h : p.quantity < threshold
  · simp [h, not_le.mpr h, alertMessages, generateLowStockMessage]
  · simp [h, alertMessages]

/-- Witness for C3: `LAP-001` is present in `dbTwo` with quantity 3, below
the threshold 5, so exactly the one formatted alert is sent. -/
theorem checkLowStock_alert_calls_witness :
    findUnique dbTwo "LAP-001" = some laptopLow ∧
    ((3:Int) < 5 →
      alertMessages (checkLowStock dbTwo "LAP-001" 5).2 =
        ["Low stock alert: Product " ++ "LAP-001" ++ " has only " ++
          toString (3:Int) ++ " units left"]) ∧
    ((5:Int) ≤ 3 →
      alertMessages (checkLowStock dbTwo "LAP-001" 5).2 = []) ∧
    (alertMessages (checkLowStock dbTwo "LAP-001" 5).2).length ≤ 1 :=
  ⟨rfl, checkLowStock_alert_calls dbTwo "LAP-001" 5 laptopLow rfl⟩

/-- C4: for every present sku, `removeProduct` succeeds with the fixed
success message and the sku becomes unfindable; the round-trip
`addProduct` then `removeProduct` then lookup of the same sku yields
absent. -/
theorem removeProduct_present_spec (db : DB) (sku : String) (p : Product)
    (hp : findUnique db sku = some p) :
    (removeProduct db sku).1 = .ok { message := "Product removed successfully" } ∧
    findUnique (removeProduct db sku).2.1 sku = none ∧
    (∀ data : CreateProductDto, 0 ≤ data.quantity →
      findUnique db data.sku = none →
      findUnique (removeProduct (addProduct db data).2.1 data.sku).2.1 data.sku
        = none) := by
  refine ⟨(removeProduct_unfindable db sku p hp).1,
    (removeProduct_unfindable db sku p hp).2, ?_⟩
  intro data hq habs
  have h1 := addProduct_ok db data hq habs
  have h2 : findUnique (addProduct db data).2.1 data.sku
      = some (prismaCreate db data).1 := by
    rw [h1]
    exact findUnique_prismaCreate_self db data habs
  exact (removeProduct_unfindable (addProduct db data).2.1 data.sku
    (prismaCreate db data).1 h2).2

/-- Witness for C4: removing the present `LAP-001` from `dbLow` succeeds
and makes it unfindable; adding `MOU-001` and removing it leaves it
absent. -/
theorem removeProduct_present_spec_witness :
    findUnique dbLow "LAP-001" = some laptopLow ∧
    (removeProduct dbLow "LAP-001").1 =
      .ok { message := "Product removed successfully" } ∧
    findUnique (removeProduct dbLow "LAP-001").2.1 "LAP-001" = none ∧
    (0:Int) ≤ mouseDto.quantity ∧ findUnique dbLow mouseDto.sku = none ∧
    findUnique
      (removeProduct (addProduct dbLow mouseDto).2.1 mouseDto.sku).2.1
      mouseDto.sku = none := by
  have h := removeProduct_present_spec dbLow "LAP-001" laptopLow rfl
  exact ⟨rfl, h.1, h.2.1, by decide, rfl, h.2.2 mouseDto (by decide) rfl⟩

/-- C5: for every input with negative quantity, `addProduct` fails with
the negative-quantity error, leaves the store unchanged, and performs no
collaborator call at all (empty trace: no read and no write). -/
theorem addProduct_negative_spec (db : DB) (data : CreateProductDto)
    (h : data.quantity < 0) :
    (addProduct db data).1 = .error .quantityNegative ∧
    (addProduct db data).2.1 = db ∧
    (addProduct db data).2.2 = [] := by
  unfold addProduct validateQuantity
  simp [h]

/-- Witness for C5: adding `("Laptop", "LAP-002", -5)` fails with the
negative-quantity error and touches nothing. -/
theorem addProduct_negative_spec_witness :
    negativeDto.quantity < 0 ∧
    (addProduct dbLow negativeDto).1 = .error .quantityNegative ∧
    (addProduct dbLow negativeDto).2.1 = dbLow ∧
    (addProduct dbLow negativeDto).2.2 = [] :=
  ⟨by decide, addProduct_negative_spec dbLow negativeDto (by decide)⟩

/-- C6: for every input with nonnegative quantity whose sku is already
present, `addProduct` fails with the duplicate-SKU error, leaves the store
unchanged, and performs exactly one store read and no write. -/
theorem addProduct_duplicate_spec (db : DB) (data : CreateProductDto)
    (p : Product) (hq : 0 ≤ data.quantity)
    (hp : findUnique db data.sku = some p) :
    (addProduct db data).1 = .error .skuDuplicate ∧
    (addProduct db data).2.1 = db ∧
    (addProduct db data).2.2 = [.storeRead data.sku] := by
  unfold addProduct validateUniqueSku
  rw [validateQuantity_ok hq, hp]
  exact ⟨rfl, rfl, rfl⟩

/-- Witness for C6: adding `("Desktop", "LAP-001", 5)` while `LAP-001` is
present fails with the duplicate-SKU error and writes nothing. -/
theorem addProduct_duplicate_spec_witness :
    (0:Int) ≤ duplicateDto.quantity ∧
    findUnique dbLow duplicateDto.sku = some laptopLow ∧
    (addProduct dbLow duplicateDto).1 = .error .skuDuplicate ∧
    (addProduct dbLow duplicateDto).2.1 = dbLow ∧
    (addProduct dbLow duplicateDto).2.2 = [.storeRead duplicateDto.sku] :=
  ⟨by decide, rfl,
    addProduct_duplicate_spec dbLow duplicateDto laptopLow (by decide) rfl⟩

/-- C7: for every absent sku, `removeProduct` fails with the not-found
error, leaves the store unchanged, and performs exactly one store read and
no delete. -/
theorem removeProduct_absent_spec (db : DB) (sku : String)
    (h : findUnique db sku = none) :
    (removeProduct db sku).1 = .error .productNotFound ∧
    (removeProduct db sku).2.1 = db ∧
    (removeProduct db sku).2.2 = [.storeRead sku] := by
  unfold removeProduct findProductBySku
  rw [h]
  exact ⟨rfl, rfl, rfl⟩

/-- Witness for C7: removing `NON-EXISTENT` from `dbLow` fails with the
not-found error and deletes nothing. -/
theorem removeProduct_absent_spec_witness :
    findUnique dbLow "NON-EXISTENT" = none ∧
    (removeProduct dbLow "NON-EXISTENT").1 = .error .productNotFound ∧
    (removeProduct dbLow "NON-EXISTENT").2.1 = dbLow ∧
    (removeProduct dbLow "NON-EXISTENT").2.2 = [.storeRead "NON-EXISTENT"] :=
  ⟨rfl, removeProduct_absent_spec dbLow "NON-EXISTENT" rfl⟩

/-- C8 counterexample: `addProduct` accepts an empty name.  Adding
`("", "X-1", 1)` to the empty store succeeds, and the store afterwards
holds a record whose name is the empty string, so not every accepted
product has a non-empty name. -/
theorem addProduct_accepts_empty_name :
    (addProduct dbEmpty emptyNameDto).1 =
      .ok { id := 1, name := "", sku := "X-1", quantity := 1, createdAt := 0 } ∧
    (addProduct dbEmpty emptyNameDto).2.1.products.map Product.name = [""] :=
  ⟨rfl, rfl⟩

/-- C8 (amended): every record accepted by `addProduct` carries exactly
the caller-supplied name — the service performs no non-emptiness check on
it — so the stored name is non-empty precisely when the input name is. -/
theorem addProduct_name_passthrough (db : DB) (data : CreateProductDto)
    (p : Product) (hok : (addProduct db data).1 = .ok p) :
    p.name = data.name ∧ (data.name ≠ "" → p.name ≠ "") := by
  unfold addProduct validateUniqueSku at hok
  by_cases hq : data.quantity < 0
  · rw [show validateQuantity data.quantity = .error .quantityNegative from by
      simp [validateQuantity, hq]] at hok
    exact absurd hok (by simp)
  · rw [validateQuantity_ok (not_lt.mp hq)] at hok
    cases hfu : findUnique db data.sku with
    | some q =>
      rw [hfu] at hok
      exact absurd hok (by simp)
    | none =>
      rw [hfu] at hok
      have hp : (prismaCreate db data).1 = p := by simpa using hok
      subst hp
      exact ⟨rfl, fun h => h⟩

/-- Witness for C8 (amended): the record returned for
`("Laptop", "LAP-001", 10)` carries the input name, which is non-empty
because the input is. -/
theorem addProduct_name_passthrough_witness :
    (addProduct dbEmpty laptopDto).1 = .ok pLaptop ∧
    pLaptop.name = laptopDto.name ∧
    (laptopDto.name ≠ "" → pLaptop.name ≠ "") :=
  ⟨rfl, addProduct_name_passthrough dbEmpty laptopDto pLaptop rfl⟩

/-- C9: calling `checkLowStock` without a threshold argument behaves
exactly as with threshold 5, and on a present sku the alert fires exactly
when the stored quantity is strictly below 5. -/
theorem checkLowStock_default_threshold (db : DB) (sku : String) :
    checkLowStock db sku = checkLowStock db sku 5 ∧
    (∀ p, findUnique db sku = some p →
      ((checkLowStock db sku).1 = .ok { alertSent := true } ↔
        p.quantity < 5)) := by
  refine ⟨rfl, ?_⟩
  intro p hp
  unfold checkLowStock
  rw [hp]
  by_cases h : p.quantity < 5
  · simp [h]
  · simp [h]

/-- Witness for C9: on `dbLow` and the present `LAP-001` (quantity 3), the
no-threshold call equals the threshold-5 call and the alert fires. -/
theorem checkLowStock_default_threshold_witness :
    checkLowStock dbLow "LAP-001" = checkLowStock dbLow "LAP-001" 5 ∧
    findUnique dbLow "LAP-001" = some laptopLow ∧
    ((checkLowStock dbLow "LAP-001").1 = .ok { alertSent := true } ↔
      laptopLow.quantity < 5) := by
  have h := checkLowStock_default_threshold dbLow "LAP-001"
  exact ⟨h.1, rfl, h.2 laptopLow rfl⟩

/-- C10: `addProduct` accepts the boundary quantity zero: with quantity 0
and an absent sku it succeeds and the stored record has quantity 0. -/
theorem addProduct_zero_quantity_spec (db : DB) (data : CreateProductDto)
    (hq : data.quantity = 0) (habs : findUnique db data.sku = none) :
    ∃ p, (addProduct db data).1 = .ok p ∧ p.quantity = 0 ∧
      (addProduct db data).2.1.products = db.products ++ [p] := by
  refine ⟨(prismaCreate db data).1, ?_⟩
  rw [addProduct_ok db data (le_of_eq hq.symm) habs]
  exact ⟨rfl, hq, rfl⟩

/-- Witness for C10: adding `("Monitor", "MON-001", 0)` to `dbLow`
succeeds with stored quantity 0. -/
theorem addProduct_zero_quantity_spec_witness :
    zeroDto.quantity = 0 ∧ findUnique dbLow zeroDto.sku = none ∧
    ∃ p, (addProduct dbLow zeroDto).1 = .ok p ∧ p.quantity = 0 ∧
      (addProduct dbLow zeroDto).2.1.products = dbLow.products ++ [p] :=
  ⟨rfl, rfl, addProduct_zero_quantity_spec dbLow zeroDto rfl rfl⟩

end Inventory
